import Mathlib

/-!
Shallow embedding of the job-status poller of the audit-tool frontend
(vanilla-JS page, `app.js`): the `checkAnalysisStatus` polling loop, the
`resetAnalysisState` cleanup function and the `viewFileResults` view
transition, together with a small step semantics (timer firings, external
calls, resets) used for the temporal and invariant claims.

Modelling conventions:
* The JS globals (`currentFileId`, `currentJobId`, `statusCheckTimer`,
  `statusCheckAttempts`, `window.statusCheckErrorCount`) become fields of
  `PollerState`.  `window.statusCheckErrorCount` starts out `undefined` in
  JS, which is modelled as `Option Nat` with `none` for `undefined`.
* One invocation of the async `checkAnalysisStatus` is a pure function from
  the state and the outcome of its status fetch (`FetchOutcome`) to the new
  state plus a list of observable effects (requests issued, timers
  scheduled).  A thrown error anywhere in the `try` block (network error,
  non-ok HTTP status, malformed JSON) is the `FetchOutcome.err` case,
  handled by the `catch` branch.
* `setTimeout` returns a fresh handle (`nextTimerId`) which is appended to
  the environment's list of pending timers; `clearTimeout h` removes `h`
  from that list.  A timer firing removes it from the pending list before
  the callback runs, exactly as in the event loop.
* `loadAnalysisResults` is modelled up to the issuing of its one results
  request (it returns early when `currentFileId` is null); the rendering of
  the response body is outside every claim.
-/

namespace AuditTool

/-- Outcome of the status fetch inside one `checkAnalysisStatus` invocation:
either the `try` block throws (`err msg`, covering network errors, the
explicit `throw` on a non-ok response, and malformed payloads) or a JSON
body `{status, error?, progress}` is obtained. -/
inductive FetchOutcome where
  | err (msg : String)
  | ok (status : String) (errField : Option String) (progress : Nat)
deriving DecidableEq, Repr

/-- Observable effects of one invocation: an HTTP status request for a job,
an HTTP results fetch for a file, or a `setTimeout` with a given delay in
milliseconds. -/
inductive Effect where
  | statusRequest (jobId : String)
  | resultsFetch (fileId : String)
  | scheduleTimer (delay : Nat)
deriving DecidableEq, Repr

/-- The mutable globals of the page together with the DOM state the claims
mention (progress bar, status message, retry buttons appended to the
progress section, section visibility, analyze-button state). -/
structure PollerState where
  currentFileId : Option String
  currentJobId : Option String
  statusCheckTimer : Option Nat
  statusCheckAttempts : Nat
  /-- Models `window.statusCheckErrorCount`; `none` models JS `undefined`. -/
  statusCheckErrorCount : Option Nat
  /-- Handles of timers the event loop still holds pending. -/
  pendingTimers : List Nat
  /-- Next fresh handle `setTimeout` will return. -/
  nextTimerId : Nat
  statusMessage : String
  progressWidth : Nat
  /-- Whether the progress bar carries the `bg-danger` class. -/
  progressDanger : Bool
  /-- Number of retry buttons appended to the progress section. -/
  retryButtons : Nat
  uploadVisible : Bool
  analysisVisible : Bool
  progressVisible : Bool
  resultsVisible : Bool
  analyzeBtnDisabled : Bool
deriving DecidableEq, Repr

/-- Source constant `MAX_STATUS_CHECK_ATTEMPTS = 120`. -/
def MAX_STATUS_CHECK_ATTEMPTS : Nat := 120

/-- Source constant `MAX_CONSECUTIVE_ERRORS = 3` (local to the catch branch). -/
def MAX_CONSECUTIVE_ERRORS : Nat := 3

/-- The `if (statusCheckTimer) { clearTimeout(statusCheckTimer); statusCheckTimer = null; }`
idiom: drop the stored handle from the pending list and null the variable. -/
def clearStatusTimer (s : PollerState) : PollerState :=
  match s.statusCheckTimer with
  | some t =>
      { s with pendingTimers := s.pendingTimers.erase t, statusCheckTimer := none }
  | none => s

/-- Models `statusCheckTimer = setTimeout(checkAnalysisStatus, delay)`: a fresh
handle becomes pending and is stored in `statusCheckTimer`. -/
def setStatusTimer (s : PollerState) (delay : Nat) : PollerState × Effect :=
  ({ s with
      pendingTimers := s.pendingTimers ++ [s.nextTimerId],
      statusCheckTimer := some s.nextTimerId,
      nextTimerId := s.nextTimerId + 1 },
   Effect.scheduleTimer delay)

/-- Delay chosen in the `pending` branch:
`Math.min(2000 + statusCheckAttempts * 100, 5000)`. -/
def pendingDelay (attempts : Nat) : Nat :=
  min (2000 + attempts * 100) 5000

/-- Delay chosen in the `processing` branch:
`Math.min(1000 + statusCheckAttempts * 50, 3000)`. -/
def processingDelay (attempts : Nat) : Nat :=
  min (1000 + attempts * 50) 3000

/-- JS `data.error || fallback`: an absent or empty (falsy) error field
selects the fallback. -/
def jsOrElse (v : Option String) (fallback : String) : String :=
  match v with
  | some e => if e = "" then fallback else e
  | none => fallback

/-- The function `loadAnalysisResults`, modelled up to the issuing of its single results
request: it returns immediately when `currentFileId` is null, otherwise it
fetches `/analysis/results/{currentFileId}` once.  Its internal rendering
of the response is outside the claims and is not modelled. -/
def loadAnalysisResults (s : PollerState) : PollerState × List Effect :=
  match s.currentFileId with
  | none => (s, [])
  | some fid => (s, [Effect.resultsFetch fid])

/-- The `onclick` handler of the retry button created in the `failed`
branch: hide the progress section, show the analysis section, re-enable the
analyze button (the pre-analysis screen). -/
def retryOnClick (s : PollerState) : PollerState :=
  { s with
      progressVisible := false,
      analysisVisible := true,
      analyzeBtnDisabled := false }

/-- One invocation of `checkAnalysisStatus`, given the outcome of its
status fetch.  Mirrors the source line by line: null-job guard, attempt
increment and ceiling check, clearing of the previous timer, then the
branch on the fetched status, with the `catch` branch handling `err`. -/
def checkAnalysisStatus (s : PollerState) (outcome : FetchOutcome) :
    PollerState × List Effect :=
  match s.currentJobId with
  | none => (s, [])
  | some jobId =>
    let s1 := { s with statusCheckAttempts := s.statusCheckAttempts + 1 }
    if MAX_STATUS_CHECK_ATTEMPTS < s1.statusCheckAttempts then
      ({ s1 with
          statusMessage := "Vérification interrompue après trop de tentatives" },
       [])
    else
      let s2 := clearStatusTimer s1
      match outcome with
      | FetchOutcome.err m =>
          let s3 := { s2 with statusMessage := "Erreur: " ++ m }
          let ec := s3.statusCheckErrorCount.getD 0 + 1
          let s4 := { s3 with statusCheckErrorCount := some ec }
          if ec < MAX_CONSECUTIVE_ERRORS then
            let p := setStatusTimer s4 5000
            (p.1, [Effect.statusRequest jobId, p.2])
          else
            ({ s4 with
                statusMessage :=
                  s4.statusMessage ++ " - Vérifications arrêtées après trop d\x27erreurs",
                statusCheckAttempts := 0,
                statusCheckErrorCount := some 0 },
             [Effect.statusRequest jobId])
      | FetchOutcome.ok status errField progress =>
          let s3 := { s2 with progressWidth := progress }
          if status = "pending" then
            let s4 := { s3 with statusMessage := "En attente de traitement..." }
            let p := setStatusTimer s4 (pendingDelay s4.statusCheckAttempts)
            (p.1, [Effect.statusRequest jobId, p.2])
          else if status = "processing" then
            let s4 := { s3 with statusMessage := "Analyse en cours..." }
            let p := setStatusTimer s4 (processingDelay s4.statusCheckAttempts)
            (p.1, [Effect.statusRequest jobId, p.2])
          else if status = "completed" then
            let s4 := { s3 with statusMessage := "Analyse terminée!" }
            let p := loadAnalysisResults s4
            ({ p.1 with statusCheckAttempts := 0 },
             Effect.statusRequest jobId :: p.2)
          else if status = "failed" then
            ({ s3 with
                statusMessage :=
                  "Erreur: " ++ jsOrElse errField "Une erreur s\x27est produite",
                progressDanger := true,
                statusCheckAttempts := 0,
                retryButtons := s3.retryButtons + 1 },
             [Effect.statusRequest jobId])
          else
            (s3, [Effect.statusRequest jobId])

/-- The function `resetAnalysisState`: clear any pending timer, zero the attempt counter,
zero `window.statusCheckErrorCount` when it is defined, and reset the
progress bar and status message. -/
def resetAnalysisState (s : PollerState) : PollerState :=
  let s1 := clearStatusTimer s
  { s1 with
      statusCheckAttempts := 0,
      statusCheckErrorCount :=
        match s1.statusCheckErrorCount with
        | some _ => some 0
        | none => none,
      progressWidth := 0,
      progressDanger := false,
      statusMessage := "Initialisation de l\x27analyse..." }

/-- The function `viewFileResults(fileId)`: reset the poller state first, install the new
file id, hide all sections, then load the new view's results. -/
def viewFileResults (s : PollerState) (fileId : String) :
    PollerState × List Effect :=
  let s1 := resetAnalysisState s
  let s2 :=
    { s1 with
        currentFileId := some fileId,
        uploadVisible := false,
        analysisVisible := false,
        progressVisible := false,
        resultsVisible := false }
  loadAnalysisResults s2

/-- The events that drive the poller: a pending timer fires (running
`checkAnalysisStatus` with some fetch outcome), `checkAnalysisStatus` is
invoked directly (e.g. from the analyze-button handler), the state is
reset, or the user switches the viewed file. -/
inductive Step where
  | fire (outcome : FetchOutcome)
  | call (outcome : FetchOutcome)
  | reset
  | viewFile (fileId : String)
deriving DecidableEq, Repr

/-- Small-step semantics.  A `fire` does nothing when no timer is pending;
otherwise the fired timer leaves the pending list (the stored handle,
now stale, is untouched, as in the event loop) and the callback runs. -/
def stepRun (st : Step) (s : PollerState) : PollerState × List Effect :=
  match st with
  | Step.fire o =>
      match s.pendingTimers with
      | [] => (s, [])
      | _t :: rest =>
          checkAnalysisStatus { s with pendingTimers := rest } o
  | Step.call o => checkAnalysisStatus s o
  | Step.reset => (resetAnalysisState s, [])
  | Step.viewFile fid => viewFileResults s fid

/-- Run a list of steps, keeping only the final state. -/
def runSteps : List Step → PollerState → PollerState
  | [], s => s
  | st :: rest, s => runSteps rest (stepRun st s).1

/-- Run a list of steps, collecting every emitted effect in order. -/
def runTrace : List Step → PollerState → PollerState × List Effect
  | [], s => (s, [])
  | st :: rest, s =>
      let p := stepRun st s
      let q := runTrace rest p.1
      (q.1, p.2 ++ q.2)

/-- Number of `scheduleTimer` effects in a trace. -/
def scheduleCount (es : List Effect) : Nat :=
  (es.filter fun e =>
    match e with
    | Effect.scheduleTimer _ => true
    | _ => false).length

/-- Number of `statusRequest` effects in a trace. -/
def requestCount (es : List Effect) : Nat :=
  (es.filter fun e =>
    match e with
    | Effect.statusRequest _ => true
    | _ => false).length

/-- Number of `resultsFetch` effects in a trace. -/
def fetchCount (es : List Effect) : Nat :=
  (es.filter fun e =>
    match e with
    | Effect.resultsFetch _ => true
    | _ => false).length

/-- A step that is a poll invocation (timer firing or direct call), as
opposed to an explicit external reset or view change. -/
def isPollStep (st : Step) : Bool :=
  match st with
  | Step.fire _ => true
  | Step.call _ => true
  | Step.reset => false
  | Step.viewFile _ => false

/-- Environment invariant tying the stored handle to the pending timers:
at most one timer is pending, and any pending timer is the stored one. -/
def timerInv (s : PollerState) : Prop :=
  s.pendingTimers.length ≤ 1 ∧
    ∀ t ∈ s.pendingTimers, s.statusCheckTimer = some t

instance (s : PollerState) : Decidable (timerInv s) := by
  unfold timerInv; infer_instance

/-- The page's state at load: no job, no timers, zeroed counters,
`window.statusCheckErrorCount` still undefined. -/
def initialState : PollerState :=
  { currentFileId := none
    currentJobId := none
    statusCheckTimer := none
    statusCheckAttempts := 0
    statusCheckErrorCount := none
    pendingTimers := []
    nextTimerId := 0
    statusMessage := ""
    progressWidth := 0
    progressDanger := false
    retryButtons := 0
    uploadVisible := true
    analysisVisible := false
    progressVisible := false
    resultsVisible := false
    analyzeBtnDisabled := false }

/-- State right after the analyze-button handler started job `job1` on file
`f1` and is about to run its first `checkAnalysisStatus`. -/
def startedState : PollerState :=
  { initialState with
      currentFileId := some "f1"
      currentJobId := some "job1"
      uploadVisible := false
      analysisVisible := false
      progressVisible := true
      analyzeBtnDisabled := true }

/-- A started job whose attempt counter has already reached the ceiling. -/
def ceilingState : PollerState :=
  { startedState with statusCheckAttempts := 120 }

/-- A started job with two recorded status-check errors. -/
def twoErrorsState : PollerState :=
  { startedState with statusCheckErrorCount := some 2 }

/-- A started job at attempt 5 with two recorded status-check errors. -/
def errorsAt5State : PollerState :=
  { startedState with statusCheckAttempts := 5, statusCheckErrorCount := some 2 }

/-- A started job at attempt 50 with a pending timer (handle 7) and two
recorded status-check errors — the spec's view-switch scenario. -/
def pendingAt50State : PollerState :=
  { startedState with
      statusCheckAttempts := 50
      statusCheckErrorCount := some 2
      pendingTimers := [7]
      statusCheckTimer := some 7
      nextTimerId := 8 }

/-- Three consecutive status-check failures. -/
def threeFailSteps : List Step :=
  [Step.call (FetchOutcome.err "e1"),
   Step.fire (FetchOutcome.err "e2"),
   Step.fire (FetchOutcome.err "e3")]

/-- The spec scenario `[pending, pending, processing, completed]`. -/
def completedScenario : List Step :=
  [Step.call (FetchOutcome.ok "pending" none 0),
   Step.fire (FetchOutcome.ok "pending" none 10),
   Step.fire (FetchOutcome.ok "processing" none 50),
   Step.fire (FetchOutcome.ok "completed" none 100)]

/-- The spec scenario `[processing, failed]` with `error: "X"`. -/
def failedScenario : List Step :=
  [Step.call (FetchOutcome.ok "processing" none 50),
   Step.fire (FetchOutcome.ok "failed" (some "X") 50)]

/-- Two status-check failures followed by a successful `pending` response. -/
def errorThenSuccessSteps : List Step :=
  [Step.call (FetchOutcome.err "e1"),
   Step.fire (FetchOutcome.err "e2"),
   Step.fire (FetchOutcome.ok "pending" none 10)]

/-- The steps after which the code actually zeroes the attempt counter:
explicit resets and view changes, poll invocations answered `completed` or
`failed`, and poll invocations whose status fetch fails when the
consecutive-error counter is about to reach its ceiling. -/
def zeroingStepB (s : PollerState) (st : Step) : Bool :=
  match st with
  | Step.reset => true
  | Step.viewFile _ => true
  | Step.call (FetchOutcome.ok st2 _ _) => st2 == "completed" || st2 == "failed"
  | Step.fire (FetchOutcome.ok st2 _ _) => st2 == "completed" || st2 == "failed"
  | Step.call (FetchOutcome.err _) =>
      decide (MAX_CONSECUTIVE_ERRORS ≤ s.statusCheckErrorCount.getD 0 + 1)
  | Step.fire (FetchOutcome.err _) =>
      decide (MAX_CONSECUTIVE_ERRORS ≤ s.statusCheckErrorCount.getD 0 + 1)

/-- Modelled from the spec sentence of the claim under test: the only steps
it allows to zero the attempt counter are terminal `completed` / `failed`
transitions and explicit resets or view changes. -/
def terminalOrResetStepB (st : Step) : Bool :=
  match st with
  | Step.reset => true
  | Step.viewFile _ => true
  | Step.call (FetchOutcome.ok st2 _ _) => st2 == "completed" || st2 == "failed"
  | Step.fire (FetchOutcome.ok st2 _ _) => st2 == "completed" || st2 == "failed"
  | Step.call (FetchOutcome.err _) => false
  | Step.fire (FetchOutcome.err _) => false

/-! Basic lemmas about the timer helpers. -/

theorem clearStatusTimer_statusCheckTimer (s : PollerState) :
    (clearStatusTimer s).statusCheckTimer = none := by
  unfold clearStatusTimer; cases h : s.statusCheckTimer <;> simp [h]

theorem clearStatusTimer_statusCheckAttempts (s : PollerState) :
    (clearStatusTimer s).statusCheckAttempts = s.statusCheckAttempts := by
  unfold clearStatusTimer; cases h : s.statusCheckTimer <;> rfl

theorem clearStatusTimer_statusCheckErrorCount (s : PollerState) :
    (clearStatusTimer s).statusCheckErrorCount = s.statusCheckErrorCount := by
  unfold clearStatusTimer; cases h : s.statusCheckTimer <;> rfl

theorem clearStatusTimer_statusMessage (s : PollerState) :
    (clearStatusTimer s).statusMessage = s.statusMessage := by
  unfold clearStatusTimer; cases h : s.statusCheckTimer <;> rfl

theorem clearStatusTimer_retryButtons (s : PollerState) :
    (clearStatusTimer s).retryButtons = s.retryButtons := by
  unfold clearStatusTimer; cases h : s.statusCheckTimer <;> rfl

theorem clearStatusTimer_currentFileId (s : PollerState) :
    (clearStatusTimer s).currentFileId = s.currentFileId := by
  unfold clearStatusTimer; cases h : s.statusCheckTimer <;> rfl

theorem clearStatusTimer_progressWidth (s : PollerState) :
    (clearStatusTimer s).progressWidth = s.progressWidth := by
  unfold clearStatusTimer; cases h : s.statusCheckTimer <;> rfl

theorem loadAnalysisResults_fst (s : PollerState) :
    (loadAnalysisResults s).1 = s := by
  unfold loadAnalysisResults; cases h : s.currentFileId <;> rfl

theorem timerInv_cases (s : PollerState) (h : timerInv s) :
    s.pendingTimers = [] ∨
      ∃ t, s.pendingTimers = [t] ∧ s.statusCheckTimer = some t := by
  obtain ⟨hlen, hall⟩ := h
  cases hp : s.pendingTimers with
  | nil => exact Or.inl rfl
  | cons a l =>
    cases l with
    | nil => exact Or.inr ⟨a, rfl, hall a (by rw [hp]; simp)⟩
    | cons b l2 => rw [hp] at hlen; simp at hlen

theorem clearStatusTimer_empty (s : PollerState) (h : timerInv s) :
    (clearStatusTimer s).pendingTimers = [] := by
  rcases timerInv_cases s h with hp | ⟨t, hp, hst⟩
  · unfold clearStatusTimer
    cases hst : s.statusCheckTimer <;> simp [hp, hst]
  · unfold clearStatusTimer
    rw [hst]
    simp [hp]

/-! Lemmas about the attempt ceiling and the timer invariant. -/

theorem checkAnalysisStatus_ceiling (s : PollerState) (o : FetchOutcome)
    (h : MAX_STATUS_CHECK_ATTEMPTS ≤ s.statusCheckAttempts) :
    (checkAnalysisStatus s o).2 = [] ∧
    MAX_STATUS_CHECK_ATTEMPTS ≤ (checkAnalysisStatus s o).1.statusCheckAttempts ∧
    (checkAnalysisStatus s o).1.pendingTimers = s.pendingTimers := by
  unfold checkAnalysisStatus
  cases hj : s.currentJobId with
  | none => exact ⟨rfl, h, rfl⟩
  | some j =>
    have hc : MAX_STATUS_CHECK_ATTEMPTS < s.statusCheckAttempts + 1 := by omega
    simp only [if_pos hc]
    exact ⟨trivial, by omega, trivial⟩

theorem stepRun_ceiling (s : PollerState) (st : Step)
    (hp : isPollStep st = true)
    (h : MAX_STATUS_CHECK_ATTEMPTS ≤ s.statusCheckAttempts) :
    (stepRun st s).2 = [] ∧
    MAX_STATUS_CHECK_ATTEMPTS ≤ (stepRun st s).1.statusCheckAttempts := by
  cases st with
  | fire o =>
    unfold stepRun
    cases hpend : s.pendingTimers with
    | nil => exact ⟨rfl, h⟩
    | cons t rest =>
      have h2 := checkAnalysisStatus_ceiling { s with pendingTimers := rest } o h
      exact ⟨h2.1, h2.2.1⟩
  | call o =>
    have h2 := checkAnalysisStatus_ceiling s o h
    exact ⟨h2.1, h2.2.1⟩
  | reset => simp [isPollStep] at hp
  | viewFile fid => simp [isPollStep] at hp

theorem runTrace_ceiling (steps : List Step) (s : PollerState)
    (hall : ∀ st ∈ steps, isPollStep st = true)
    (h : MAX_STATUS_CHECK_ATTEMPTS ≤ s.statusCheckAttempts) :
    (runTrace steps s).2 = [] := by
  induction steps generalizing s with
  | nil => rfl
  | cons st rest ih =>
    unfold runTrace
    have h1 := stepRun_ceiling s st (hall st (by simp)) h
    simp only [h1.1, List.nil_append]
    exact ih (stepRun st s).1 (fun u hu => hall u (by simp [hu])) h1.2

theorem checkAnalysisStatus_timerInv (s : PollerState) (o : FetchOutcome)
    (h : timerInv s) : timerInv (checkAnalysisStatus s o).1 := by
  unfold checkAnalysisStatus
  cases hj : s.currentJobId with
  | none => exact h
  | some j =>
    by_cases hc : MAX_STATUS_CHECK_ATTEMPTS < s.statusCheckAttempts + 1
    · simp only [if_pos hc]
      exact h
    · have hempty :
          (clearStatusTimer
            { s with
                currentJobId := some j,
                statusCheckAttempts := s.statusCheckAttempts + 1 }).pendingTimers =
            [] := clearStatusTimer_empty _ h
      simp only [if_neg hc]
      cases o with
      | err m =>
        dsimp only
        split
        · unfold timerInv setStatusTimer
          simp [hempty]
        · unfold timerInv
          simp [hempty]
      | ok st2 e p =>
        dsimp only
        split
        · unfold timerInv setStatusTimer
          simp [hempty]
        · split
          · unfold timerInv setStatusTimer
            simp [hempty]
          · split
            · unfold timerInv
              simp [hempty, loadAnalysisResults_fst]
            · split
              · unfold timerInv
                simp [hempty]
              · unfold timerInv
                simp [hempty]

theorem stepRun_timerInv (st : Step) (s : PollerState) (h : timerInv s) :
    timerInv (stepRun st s).1 := by
  cases st with
  | fire o =>
    unfold stepRun
    cases hpend : s.pendingTimers with
    | nil => exact h
    | cons t rest =>
      apply checkAnalysisStatus_timerInv
      obtain ⟨hlen, hall⟩ := h
      rw [hpend] at hlen hall
      refine ⟨?_, ?_⟩
      · simp only [List.length_cons] at hlen
        simp only []
        omega
      · intro u hu
        exact hall u (List.mem_cons_of_mem _ hu)
  | call o => exact checkAnalysisStatus_timerInv s o h
  | reset =>
    have hempty := clearStatusTimer_empty s h
    unfold stepRun resetAnalysisState timerInv
    simp [hempty]
  | viewFile fid =>
    have hempty := clearStatusTimer_empty s h
    unfold stepRun viewFileResults resetAnalysisState timerInv
    simp [hempty, loadAnalysisResults_fst]

theorem runSteps_timerInv (steps : List Step) (s : PollerState)
    (h : timerInv s) : timerInv (runSteps steps s) := by
  induction steps generalizing s with
  | nil => exact h
  | cons st rest ih => exact ih (stepRun st s).1 (stepRun_timerInv st s h)

theorem checkAnalysisStatus_oneTimer (s : PollerState) (o : FetchOutcome) :
    scheduleCount (checkAnalysisStatus s o).2 ≤ 1 := by
  unfold checkAnalysisStatus
  cases hj : s.currentJobId with
  | none => simp [scheduleCount]
  | some j =>
    by_cases hc : MAX_STATUS_CHECK_ATTEMPTS < s.statusCheckAttempts + 1
    · simp only [if_pos hc]
      simp [scheduleCount]
    · simp only [if_neg hc]
      cases o with
      | err m =>
        dsimp only
        split <;> simp [scheduleCount, setStatusTimer]
      | ok st2 e p =>
        dsimp only
        split
        · simp [scheduleCount, setStatusTimer]
        · split
          · simp [scheduleCount, setStatusTimer]
          · split
            · unfold loadAnalysisResults
              cases hf : (clearStatusTimer
                  { s with
                      currentJobId := some j,
                      statusCheckAttempts := s.statusCheckAttempts + 1 }).currentFileId <;>
                simp [scheduleCount]
            · split <;> simp [scheduleCount]

/-! Claim theorems. -/

theorem checkAnalysisStatus_attempts (s : PollerState) (o : FetchOutcome) :
    s.statusCheckAttempts ≤ (checkAnalysisStatus s o).1.statusCheckAttempts ∨
    ((checkAnalysisStatus s o).1.statusCheckAttempts = 0 ∧
      (match o with
       | FetchOutcome.ok st2 _ _ => st2 = "completed" ∨ st2 = "failed"
       | FetchOutcome.err _ =>
           MAX_CONSECUTIVE_ERRORS ≤ s.statusCheckErrorCount.getD 0 + 1)) := by
  unfold checkAnalysisStatus
  cases hj : s.currentJobId with
  | none => exact Or.inl le_rfl
  | some j =>
    by_cases hc : MAX_STATUS_CHECK_ATTEMPTS < s.statusCheckAttempts + 1
    · simp only [if_pos hc]
      exact Or.inl (Nat.le_succ _)
    · simp only [if_neg hc]
      cases o with
      | err m =>
        dsimp only
        split
        · left
          simp [setStatusTimer, clearStatusTimer_statusCheckAttempts]
        · rename_i hge
          right
          refine ⟨rfl, ?_⟩
          rw [clearStatusTimer_statusCheckErrorCount] at hge
          simpa using Nat.le_of_not_lt hge
      | ok st2 e p =>
        dsimp only
        split
        · left
          simp [setStatusTimer, clearStatusTimer_statusCheckAttempts]
        · split
          · left
            simp [setStatusTimer, clearStatusTimer_statusCheckAttempts]
          · split
            · rename_i hcomp
              right
              exact ⟨rfl, Or.inl hcomp⟩
            · split
              · rename_i hfail
                right
                exact ⟨rfl, Or.inr hfail⟩
              · left
                simp [clearStatusTimer_statusCheckAttempts]

/-- Claim C1: once the incremented attempt counter exceeds the ceiling of
120, the poller stops permanently: it sets the terminal too-many-attempts
message, issues no status request, schedules no timer, and no later poll
step (absent an explicit reset) ever issues a request or schedules a timer
again. -/
theorem claim1_attempt_ceiling_stops (s : PollerState) (o : FetchOutcome)
    (hmax : MAX_STATUS_CHECK_ATTEMPTS ≤ s.statusCheckAttempts) :
    (s.currentJobId.isSome = true →
      (checkAnalysisStatus s o).1.statusMessage =
        "Vérification interrompue après trop de tentatives") ∧
    (checkAnalysisStatus s o).2 = [] ∧
    ∀ steps : List Step, (∀ st ∈ steps, isPollStep st = true) →
      requestCount (runTrace steps s).2 = 0 ∧
      scheduleCount (runTrace steps s).2 = 0 := by
  refine ⟨?_, (checkAnalysisStatus_ceiling s o hmax).1, ?_⟩
  · intro hsome
    unfold checkAnalysisStatus
    cases hj : s.currentJobId with
    | none => rw [hj] at hsome; cases hsome
    | some j =>
      have hc : MAX_STATUS_CHECK_ATTEMPTS < s.statusCheckAttempts + 1 := by omega
      simp only [if_pos hc]
  · intro steps hall
    rw [runTrace_ceiling steps s hall hmax]
    exact ⟨rfl, rfl⟩

theorem claim1_attempt_ceiling_stops_witness :
    MAX_STATUS_CHECK_ATTEMPTS ≤ ceilingState.statusCheckAttempts ∧
    ((ceilingState.currentJobId.isSome = true →
      (checkAnalysisStatus ceilingState (FetchOutcome.ok "pending" none 0)).1.statusMessage =
        "Vérification interrompue après trop de tentatives") ∧
    (checkAnalysisStatus ceilingState (FetchOutcome.ok "pending" none 0)).2 = [] ∧
    ∀ steps : List Step, (∀ st ∈ steps, isPollStep st = true) →
      requestCount (runTrace steps ceilingState).2 = 0 ∧
      scheduleCount (runTrace steps ceilingState).2 = 0) :=
  ⟨by decide,
   claim1_attempt_ceiling_stops ceilingState (FetchOutcome.ok "pending" none 0) (by decide)⟩

/-- Claim C2: in any run of the poller from the page's initial state there
is at most one pending timer at every point, and a single invocation of
`checkAnalysisStatus` schedules at most one new timer. -/
theorem claim2_at_most_one_timer (steps : List Step) :
    (runSteps steps initialState).pendingTimers.length ≤ 1 ∧
    ∀ (s : PollerState) (o : FetchOutcome),
      scheduleCount (checkAnalysisStatus s o).2 ≤ 1 := by
  constructor
  · exact (runSteps_timerInv steps initialState (by decide)).1
  · exact checkAnalysisStatus_oneTimer

/-- Claim C9 counterexample: with a started job at attempt 5 and two
recorded status-check errors, a poll invocation whose status fetch fails
zeroes the attempt counter even though it is neither a `completed`/`failed`
terminal transition nor an explicit reset — the claim's list of zeroing
steps is incomplete. -/
theorem claim9_counterexample_error_abort_zeroes :
    (stepRun (Step.call (FetchOutcome.err "boom")) errorsAt5State).1.statusCheckAttempts <
      errorsAt5State.statusCheckAttempts ∧
    terminalOrResetStepB (Step.call (FetchOutcome.err "boom")) = false := by
  decide

/-- Claim C9 as amended: across every poller step the attempt counter never
decreases, except that it is set to zero by exactly the steps
`zeroingStepB` allows: a terminal `completed`/`failed` transition, the
consecutive-error abort, or an explicit reset or view change. -/
theorem claim9_amended_attempts_monotone (s : PollerState) (st : Step) :
    s.statusCheckAttempts ≤ (stepRun st s).1.statusCheckAttempts ∨
    ((stepRun st s).1.statusCheckAttempts = 0 ∧ zeroingStepB s st = true) := by
  cases st with
  | reset => exact Or.inr ⟨rfl, rfl⟩
  | viewFile fid =>
    right
    refine ⟨?_, rfl⟩
    simp [stepRun, viewFileResults, resetAnalysisState, loadAnalysisResults_fst]
  | call o =>
    rcases checkAnalysisStatus_attempts s o with h | ⟨h0, hcond⟩
    · exact Or.inl h
    · right
      refine ⟨h0, ?_⟩
      cases o with
      | ok st2 e p =>
        rcases hcond with h | h <;> simp [zeroingStepB, h]
      | err m =>
        simp [zeroingStepB]
        exact hcond
  | fire o =>
    unfold stepRun
    cases hpend : s.pendingTimers with
    | nil => exact Or.inl le_rfl
    | cons t rest =>
      rcases checkAnalysisStatus_attempts { s with pendingTimers := rest } o with h | ⟨h0, hcond⟩
      · exact Or.inl h
      · right
        refine ⟨h0, ?_⟩
        cases o with
        | ok st2 e p =>
          rcases hcond with h | h <;> simp [zeroingStepB, h]
        | err m =>
          simp [zeroingStepB]
          exact hcond

/-- Claim C3: on a status-check failure the process-wide error counter is
incremented; below the ceiling of 3 the poller reschedules after 5000 ms,
and on reaching 3 it stops permanently, appends the aborted-after-errors
note, and zeroes both counters; in particular three consecutive failures
issue exactly three requests and leave no pending timer, so a fourth
attempt never fires. -/
theorem claim3_consecutive_error_abort (s : PollerState) (j m : String)
    (hj : s.currentJobId = some j)
    (hle : s.statusCheckAttempts + 1 ≤ MAX_STATUS_CHECK_ATTEMPTS)
    (hinv : timerInv s) :
    (s.statusCheckErrorCount.getD 0 + 1 < MAX_CONSECUTIVE_ERRORS →
      (checkAnalysisStatus s (FetchOutcome.err m)).1.statusCheckErrorCount =
        some (s.statusCheckErrorCount.getD 0 + 1) ∧
      (checkAnalysisStatus s (FetchOutcome.err m)).2 =
        [Effect.statusRequest j, Effect.scheduleTimer 5000]) ∧
    (MAX_CONSECUTIVE_ERRORS ≤ s.statusCheckErrorCount.getD 0 + 1 →
      (checkAnalysisStatus s (FetchOutcome.err m)).2 = [Effect.statusRequest j] ∧
      (checkAnalysisStatus s (FetchOutcome.err m)).1.statusMessage =
        "Erreur: " ++ m ++ " - Vérifications arrêtées après trop d\x27erreurs" ∧
      (checkAnalysisStatus s (FetchOutcome.err m)).1.statusCheckAttempts = 0 ∧
      (checkAnalysisStatus s (FetchOutcome.err m)).1.statusCheckErrorCount = some 0 ∧
      (checkAnalysisStatus s (FetchOutcome.err m)).1.pendingTimers = [] ∧
      (checkAnalysisStatus s (FetchOutcome.err m)).1.statusCheckTimer = none) ∧
    requestCount (runTrace threeFailSteps startedState).2 = 3 ∧
    (runSteps threeFailSteps startedState).pendingTimers = [] ∧
    (runSteps threeFailSteps startedState).statusCheckErrorCount = some 0 ∧
    (runSteps threeFailSteps startedState).statusCheckAttempts = 0 ∧
    ∀ o, stepRun (Step.fire o) (runSteps threeFailSteps startedState) =
      (runSteps threeFailSteps startedState, []) := by
  have hc : ¬ (MAX_STATUS_CHECK_ATTEMPTS < s.statusCheckAttempts + 1) := by omega
  have hempty :
      (clearStatusTimer
        { s with
            currentJobId := some j,
            statusCheckAttempts := s.statusCheckAttempts + 1 }).pendingTimers =
        [] := clearStatusTimer_empty _ hinv
  have hpend : (runSteps threeFailSteps startedState).pendingTimers = [] := by decide
  refine ⟨?_, ?_, by decide, hpend, by decide, by decide, ?_⟩
  · intro hlt
    constructor <;>
      simp [checkAnalysisStatus, hj, hc, hlt, setStatusTimer,
        clearStatusTimer_statusCheckErrorCount, clearStatusTimer_statusMessage]
  · intro hge
    have hnlt : ¬ (s.statusCheckErrorCount.getD 0 + 1 < MAX_CONSECUTIVE_ERRORS) := by
      omega
    refine ⟨?_, ?_, ?_, ?_, ?_, ?_⟩ <;>
      simp [checkAnalysisStatus, hj, hc, hnlt, hempty,
        clearStatusTimer_statusCheckErrorCount, clearStatusTimer_statusMessage,
        clearStatusTimer_statusCheckTimer]
  · intro o
    simp [stepRun, hpend]

theorem claim3_consecutive_error_abort_witness :
    twoErrorsState.currentJobId = some "job1" ∧
    twoErrorsState.statusCheckAttempts + 1 ≤ MAX_STATUS_CHECK_ATTEMPTS ∧
    timerInv twoErrorsState ∧
    ((twoErrorsState.statusCheckErrorCount.getD 0 + 1 < MAX_CONSECUTIVE_ERRORS →
      (checkAnalysisStatus twoErrorsState (FetchOutcome.err "boom")).1.statusCheckErrorCount =
        some (twoErrorsState.statusCheckErrorCount.getD 0 + 1) ∧
      (checkAnalysisStatus twoErrorsState (FetchOutcome.err "boom")).2 =
        [Effect.statusRequest "job1", Effect.scheduleTimer 5000]) ∧
    (MAX_CONSECUTIVE_ERRORS ≤ twoErrorsState.statusCheckErrorCount.getD 0 + 1 →
      (checkAnalysisStatus twoErrorsState (FetchOutcome.err "boom")).2 =
        [Effect.statusRequest "job1"] ∧
      (checkAnalysisStatus twoErrorsState (FetchOutcome.err "boom")).1.statusMessage =
        "Erreur: " ++ "boom" ++ " - Vérifications arrêtées après trop d\x27erreurs" ∧
      (checkAnalysisStatus twoErrorsState (FetchOutcome.err "boom")).1.statusCheckAttempts = 0 ∧
      (checkAnalysisStatus twoErrorsState (FetchOutcome.err "boom")).1.statusCheckErrorCount =
        some 0 ∧
      (checkAnalysisStatus twoErrorsState (FetchOutcome.err "boom")).1.pendingTimers = [] ∧
      (checkAnalysisStatus twoErrorsState (FetchOutcome.err "boom")).1.statusCheckTimer =
        none) ∧
    requestCount (runTrace threeFailSteps startedState).2 = 3 ∧
    (runSteps threeFailSteps startedState).pendingTimers = [] ∧
    (runSteps threeFailSteps startedState).statusCheckErrorCount = some 0 ∧
    (runSteps threeFailSteps startedState).statusCheckAttempts = 0 ∧
    ∀ o, stepRun (Step.fire o) (runSteps threeFailSteps startedState) =
      (runSteps threeFailSteps startedState, [])) :=
  ⟨rfl, by decide, by decide,
   claim3_consecutive_error_abort twoErrorsState "job1" "boom" rfl (by decide) (by decide)⟩

/-- Claim C4 is contradicted by the code: after two failures and then a
successful `pending` response, `window.statusCheckErrorCount` is still 2
(the code never resets it on success, although its own comment and the spec
call it a consecutive-error counter), so a single further failure aborts
polling even though it is the only failure since the last success. -/
theorem claim4_error_counter_not_reset_on_success :
    (runSteps errorThenSuccessSteps startedState).statusCheckErrorCount = some 2 ∧
    (runSteps (errorThenSuccessSteps ++ [Step.fire (FetchOutcome.err "e3")])
        startedState).statusCheckErrorCount = some 0 ∧
    (runSteps (errorThenSuccessSteps ++ [Step.fire (FetchOutcome.err "e3")])
        startedState).pendingTimers = [] ∧
    (runSteps (errorThenSuccessSteps ++ [Step.fire (FetchOutcome.err "e3")])
        startedState).statusMessage =
      "Erreur: e3 - Vérifications arrêtées après trop d\x27erreurs" := by
  decide

/-- Claim C5: the delays of the `pending` and `processing` branches are
`min(2000 + a*100, 5000)` and `min(1000 + a*50, 3000)`, both monotone in
the attempt count and capped at 5000 ms and 3000 ms, and
`checkAnalysisStatus` schedules exactly these delays for the incremented
attempt counter. -/
theorem claim5_backoff_delays (a b : Nat) (s : PollerState) (j : String)
    (errF : Option String) (p : Nat) (hab : a ≤ b)
    (hj : s.currentJobId = some j)
    (hle : s.statusCheckAttempts + 1 ≤ MAX_STATUS_CHECK_ATTEMPTS) :
    pendingDelay a = min (2000 + a * 100) 5000 ∧
    processingDelay a = min (1000 + a * 50) 3000 ∧
    pendingDelay a ≤ pendingDelay b ∧
    processingDelay a ≤ processingDelay b ∧
    pendingDelay a ≤ 5000 ∧
    processingDelay a ≤ 3000 ∧
    (checkAnalysisStatus s (FetchOutcome.ok "pending" errF p)).2 =
      [Effect.statusRequest j,
       Effect.scheduleTimer (pendingDelay (s.statusCheckAttempts + 1))] ∧
    (checkAnalysisStatus s (FetchOutcome.ok "processing" errF p)).2 =
      [Effect.statusRequest j,
       Effect.scheduleTimer (processingDelay (s.statusCheckAttempts + 1))] := by
  have hnc : ¬ (MAX_STATUS_CHECK_ATTEMPTS < s.statusCheckAttempts + 1) := by
    omega
  refine ⟨rfl, rfl, ?_, ?_, ?_, ?_, ?_, ?_⟩
  · exact min_le_min (by omega) le_rfl
  · exact min_le_min (by omega) le_rfl
  · exact min_le_right _ _
  · exact min_le_right _ _
  · simp [checkAnalysisStatus, hj, hnc, setStatusTimer,
      clearStatusTimer_statusCheckAttempts]
  · simp [checkAnalysisStatus, hj, hnc, setStatusTimer,
      clearStatusTimer_statusCheckAttempts]

theorem claim5_backoff_delays_witness :
    (1 : Nat) ≤ 2 ∧
    startedState.currentJobId = some "job1" ∧
    startedState.statusCheckAttempts + 1 ≤ MAX_STATUS_CHECK_ATTEMPTS ∧
    (pendingDelay 1 = min (2000 + 1 * 100) 5000 ∧
    processingDelay 1 = min (1000 + 1 * 50) 3000 ∧
    pendingDelay 1 ≤ pendingDelay 2 ∧
    processingDelay 1 ≤ processingDelay 2 ∧
    pendingDelay 1 ≤ 5000 ∧
    processingDelay 1 ≤ 3000 ∧
    (checkAnalysisStatus startedState (FetchOutcome.ok "pending" none 0)).2 =
      [Effect.statusRequest "job1",
       Effect.scheduleTimer (pendingDelay (startedState.statusCheckAttempts + 1))] ∧
    (checkAnalysisStatus startedState (FetchOutcome.ok "processing" none 0)).2 =
      [Effect.statusRequest "job1",
       Effect.scheduleTimer (processingDelay (startedState.statusCheckAttempts + 1))]) :=
  ⟨by decide, rfl, by decide,
   claim5_backoff_delays 1 2 startedState "job1" none 0 (by decide) rfl (by decide)⟩

/-- Claim C10: a status response whose status is none of the four known
values updates the progress display, issues exactly the one status request,
schedules no timer, creates no retry control, leaves the status message and
the error counter untouched, and keeps only the attempt increment — polling
stops silently. -/
theorem claim10_unknown_status_stops_silently (s : PollerState) (j st2 : String)
    (errF : Option String) (p : Nat)
    (hj : s.currentJobId = some j)
    (hle : s.statusCheckAttempts + 1 ≤ MAX_STATUS_CHECK_ATTEMPTS)
    (h1 : st2 ≠ "pending") (h2 : st2 ≠ "processing")
    (h3 : st2 ≠ "completed") (h4 : st2 ≠ "failed") :
    (checkAnalysisStatus s (FetchOutcome.ok st2 errF p)).2 =
      [Effect.statusRequest j] ∧
    (checkAnalysisStatus s (FetchOutcome.ok st2 errF p)).1.progressWidth = p ∧
    (checkAnalysisStatus s (FetchOutcome.ok st2 errF p)).1.statusCheckAttempts =
      s.statusCheckAttempts + 1 ∧
    (checkAnalysisStatus s (FetchOutcome.ok st2 errF p)).1.statusCheckErrorCount =
      s.statusCheckErrorCount ∧
    (checkAnalysisStatus s (FetchOutcome.ok st2 errF p)).1.retryButtons =
      s.retryButtons ∧
    (checkAnalysisStatus s (FetchOutcome.ok st2 errF p)).1.statusMessage =
      s.statusMessage ∧
    (checkAnalysisStatus s (FetchOutcome.ok st2 errF p)).1.statusCheckTimer =
      none := by
  have hnc : ¬ (MAX_STATUS_CHECK_ATTEMPTS < s.statusCheckAttempts + 1) := by
    omega
  refine ⟨?_, ?_, ?_, ?_, ?_, ?_, ?_⟩ <;>
    simp [checkAnalysisStatus, hj, hnc, h1, h2, h3, h4,
      clearStatusTimer_statusCheckAttempts, clearStatusTimer_statusCheckErrorCount,
      clearStatusTimer_retryButtons, clearStatusTimer_statusMessage,
      clearStatusTimer_statusCheckTimer]

theorem claim10_unknown_status_stops_silently_witness :
    startedState.currentJobId = some "job1" ∧
    startedState.statusCheckAttempts + 1 ≤ MAX_STATUS_CHECK_ATTEMPTS ∧
    ("queued" : String) ≠ "pending" ∧ ("queued" : String) ≠ "processing" ∧
    ("queued" : String) ≠ "completed" ∧ ("queued" : String) ≠ "failed" ∧
    ((checkAnalysisStatus startedState (FetchOutcome.ok "queued" none 42)).2 =
      [Effect.statusRequest "job1"] ∧
    (checkAnalysisStatus startedState (FetchOutcome.ok "queued" none 42)).1.progressWidth = 42 ∧
    (checkAnalysisStatus startedState (FetchOutcome.ok "queued" none 42)).1.statusCheckAttempts =
      startedState.statusCheckAttempts + 1 ∧
    (checkAnalysisStatus startedState (FetchOutcome.ok "queued" none 42)).1.statusCheckErrorCount =
      startedState.statusCheckErrorCount ∧
    (checkAnalysisStatus startedState (FetchOutcome.ok "queued" none 42)).1.retryButtons =
      startedState.retryButtons ∧
    (checkAnalysisStatus startedState (FetchOutcome.ok "queued" none 42)).1.statusMessage =
      startedState.statusMessage ∧
    (checkAnalysisStatus startedState (FetchOutcome.ok "queued" none 42)).1.statusCheckTimer =
      none) :=
  ⟨rfl, by decide, by decide, by decide, by decide, by decide,
   claim10_unknown_status_stops_silently startedState "job1" "queued" none 42 rfl
     (by decide) (by decide) (by decide) (by decide) (by decide)⟩

/-- Claim C6: a `completed` status response triggers exactly one results
fetch, zeroes the attempt counter, and schedules no timer; the scenario
`[pending, pending, processing, completed]` yields exactly one results
fetch and afterwards no pending timer, so no further status request can
fire. -/
theorem claim6_completed_single_fetch (s : PollerState) (j f : String)
    (errF : Option String) (p : Nat)
    (hj : s.currentJobId = some j) (hf : s.currentFileId = some f)
    (hle : s.statusCheckAttempts + 1 ≤ MAX_STATUS_CHECK_ATTEMPTS) :
    (checkAnalysisStatus s (FetchOutcome.ok "completed" errF p)).2 =
      [Effect.statusRequest j, Effect.resultsFetch f] ∧
    fetchCount (checkAnalysisStatus s (FetchOutcome.ok "completed" errF p)).2 = 1 ∧
    scheduleCount (checkAnalysisStatus s (FetchOutcome.ok "completed" errF p)).2 = 0 ∧
    (checkAnalysisStatus s (FetchOutcome.ok "completed" errF p)).1.statusCheckAttempts = 0 ∧
    (checkAnalysisStatus s (FetchOutcome.ok "completed" errF p)).1.statusCheckTimer = none ∧
    fetchCount (runTrace completedScenario startedState).2 = 1 ∧
    requestCount (runTrace completedScenario startedState).2 = 4 ∧
    (runSteps completedScenario startedState).pendingTimers = [] ∧
    ∀ o, stepRun (Step.fire o) (runSteps completedScenario startedState) =
      (runSteps completedScenario startedState, []) := by
  have hnc : ¬ (MAX_STATUS_CHECK_ATTEMPTS < s.statusCheckAttempts + 1) := by
    omega
  have hpend : (runSteps completedScenario startedState).pendingTimers = [] := by
    decide
  refine ⟨?_, ?_, ?_, ?_, ?_, by decide, by decide, hpend, ?_⟩
  · simp [checkAnalysisStatus, hj, hnc, hf, loadAnalysisResults,
      clearStatusTimer_currentFileId]
  · simp [checkAnalysisStatus, hj, hnc, hf, loadAnalysisResults, fetchCount,
      clearStatusTimer_currentFileId]
  · simp [checkAnalysisStatus, hj, hnc, hf, loadAnalysisResults, scheduleCount,
      clearStatusTimer_currentFileId]
  · simp [checkAnalysisStatus, hj, hnc, hf, loadAnalysisResults,
      clearStatusTimer_currentFileId, loadAnalysisResults_fst]
  · simp [checkAnalysisStatus, hj, hnc, hf, loadAnalysisResults,
      clearStatusTimer_currentFileId, loadAnalysisResults_fst,
      clearStatusTimer_statusCheckTimer]
  · intro o
    simp [stepRun, hpend]

theorem claim6_completed_single_fetch_witness :
    startedState.currentJobId = some "job1" ∧
    startedState.currentFileId = some "f1" ∧
    startedState.statusCheckAttempts + 1 ≤ MAX_STATUS_CHECK_ATTEMPTS ∧
    ((checkAnalysisStatus startedState (FetchOutcome.ok "completed" none 100)).2 =
      [Effect.statusRequest "job1", Effect.resultsFetch "f1"] ∧
    fetchCount (checkAnalysisStatus startedState (FetchOutcome.ok "completed" none 100)).2 = 1 ∧
    scheduleCount (checkAnalysisStatus startedState (FetchOutcome.ok "completed" none 100)).2 = 0 ∧
    (checkAnalysisStatus startedState
      (FetchOutcome.ok "completed" none 100)).1.statusCheckAttempts = 0 ∧
    (checkAnalysisStatus startedState
      (FetchOutcome.ok "completed" none 100)).1.statusCheckTimer = none ∧
    fetchCount (runTrace completedScenario startedState).2 = 1 ∧
    requestCount (runTrace completedScenario startedState).2 = 4 ∧
    (runSteps completedScenario startedState).pendingTimers = [] ∧
    ∀ o, stepRun (Step.fire o) (runSteps completedScenario startedState) =
      (runSteps completedScenario startedState, [])) :=
  ⟨rfl, rfl, by decide,
   claim6_completed_single_fetch startedState "job1" "f1" none 100 rfl rfl (by decide)⟩

/-- Claim C7: a `failed` status response displays the payload's error
message (or the generic fallback when it is absent), zeroes the attempt
counter, appends exactly one retry button whose handler restores the
pre-analysis screen, and schedules no timer; the scenario
`[processing, failed]` with error `X` shows `Erreur: X` and creates exactly
one retry control. -/
theorem claim7_failed_retry_control (s : PollerState) (j e : String) (p : Nat)
    (hj : s.currentJobId = some j)
    (hle : s.statusCheckAttempts + 1 ≤ MAX_STATUS_CHECK_ATTEMPTS)
    (he : e ≠ "") :
    (checkAnalysisStatus s (FetchOutcome.ok "failed" (some e) p)).1.statusMessage =
      "Erreur: " ++ e ∧
    (checkAnalysisStatus s (FetchOutcome.ok "failed" none p)).1.statusMessage =
      "Erreur: Une erreur s\x27est produite" ∧
    (checkAnalysisStatus s (FetchOutcome.ok "failed" (some e) p)).1.statusCheckAttempts = 0 ∧
    (checkAnalysisStatus s (FetchOutcome.ok "failed" (some e) p)).1.retryButtons =
      s.retryButtons + 1 ∧
    (checkAnalysisStatus s (FetchOutcome.ok "failed" (some e) p)).2 =
      [Effect.statusRequest j] ∧
    (checkAnalysisStatus s (FetchOutcome.ok "failed" (some e) p)).1.statusCheckTimer =
      none ∧
    (∀ u : PollerState, (retryOnClick u).progressVisible = false ∧
      (retryOnClick u).analysisVisible = true ∧
      (retryOnClick u).analyzeBtnDisabled = false) ∧
    (runSteps failedScenario startedState).statusMessage = "Erreur: X" ∧
    (runSteps failedScenario startedState).retryButtons = 1 ∧
    (runSteps failedScenario startedState).pendingTimers = [] := by
  have hnc : ¬ (MAX_STATUS_CHECK_ATTEMPTS < s.statusCheckAttempts + 1) := by
    omega
  refine ⟨?_, ?_, ?_, ?_, ?_, ?_, ?_, by decide, by decide, by decide⟩
  · simp [checkAnalysisStatus, hj, hnc, jsOrElse, he,
      clearStatusTimer_statusMessage]
  · simp [checkAnalysisStatus, hj, hnc, jsOrElse]
  · simp [checkAnalysisStatus, hj, hnc]
  · simp [checkAnalysisStatus, hj, hnc, clearStatusTimer_retryButtons]
  · simp [checkAnalysisStatus, hj, hnc]
  · simp [checkAnalysisStatus, hj, hnc, clearStatusTimer_statusCheckTimer]
  · intro u
    exact ⟨rfl, rfl, rfl⟩

theorem claim7_failed_retry_control_witness :
    startedState.currentJobId = some "job1" ∧
    startedState.statusCheckAttempts + 1 ≤ MAX_STATUS_CHECK_ATTEMPTS ∧
    ("X" : String) ≠ "" ∧
    ((checkAnalysisStatus startedState (FetchOutcome.ok "failed" (some "X") 50)).1.statusMessage =
      "Erreur: " ++ "X" ∧
    (checkAnalysisStatus startedState (FetchOutcome.ok "failed" none 50)).1.statusMessage =
      "Erreur: Une erreur s\x27est produite" ∧
    (checkAnalysisStatus startedState
      (FetchOutcome.ok "failed" (some "X") 50)).1.statusCheckAttempts = 0 ∧
    (checkAnalysisStatus startedState (FetchOutcome.ok "failed" (some "X") 50)).1.retryButtons =
      startedState.retryButtons + 1 ∧
    (checkAnalysisStatus startedState (FetchOutcome.ok "failed" (some "X") 50)).2 =
      [Effect.statusRequest "job1"] ∧
    (checkAnalysisStatus startedState
      (FetchOutcome.ok "failed" (some "X") 50)).1.statusCheckTimer = none ∧
    (∀ u : PollerState, (retryOnClick u).progressVisible = false ∧
      (retryOnClick u).analysisVisible = true ∧
      (retryOnClick u).analyzeBtnDisabled = false) ∧
    (runSteps failedScenario startedState).statusMessage = "Erreur: X" ∧
    (runSteps failedScenario startedState).retryButtons = 1 ∧
    (runSteps failedScenario startedState).pendingTimers = []) :=
  ⟨rfl, by decide, by decide,
   claim7_failed_retry_control startedState "job1" "X" 50 rfl (by decide) (by decide)⟩

/-- Claim C8: from any poller state satisfying the timer invariant, the
view-transition reset leaves no pending timer, a nulled handle, and both
counters at zero, and `viewFileResults` performs this reset before issuing
the new view's single results request, whose post-state still has zero
timers and zeroed counters. -/
theorem claim8_reset_clears_state (s : PollerState) (fid : String)
    (hinv : timerInv s) :
    (resetAnalysisState s).pendingTimers = [] ∧
    (resetAnalysisState s).statusCheckTimer = none ∧
    (resetAnalysisState s).statusCheckAttempts = 0 ∧
    (resetAnalysisState s).statusCheckErrorCount.getD 0 = 0 ∧
    (viewFileResults s fid).2 = [Effect.resultsFetch fid] ∧
    (viewFileResults s fid).1.pendingTimers = [] ∧
    (viewFileResults s fid).1.statusCheckAttempts = 0 ∧
    (viewFileResults s fid).1.statusCheckErrorCount.getD 0 = 0 := by
  have hempty := clearStatusTimer_empty s hinv
  refine ⟨?_, ?_, ?_, ?_, ?_, ?_, ?_, ?_⟩
  · simp [resetAnalysisState, hempty]
  · simp [resetAnalysisState, clearStatusTimer_statusCheckTimer]
  · rfl
  · cases hc2 : s.statusCheckErrorCount <;>
      simp [resetAnalysisState, clearStatusTimer_statusCheckErrorCount, hc2]
  · simp [viewFileResults, loadAnalysisResults]
  · simp [viewFileResults, loadAnalysisResults_fst, resetAnalysisState, hempty]
  · simp [viewFileResults, loadAnalysisResults_fst, resetAnalysisState]
  · cases hc2 : s.statusCheckErrorCount <;>
      simp [viewFileResults, loadAnalysisResults_fst, resetAnalysisState,
        clearStatusTimer_statusCheckErrorCount, hc2]

theorem claim8_reset_clears_state_witness :
    timerInv pendingAt50State ∧
    ((resetAnalysisState pendingAt50State).pendingTimers = [] ∧
    (resetAnalysisState pendingAt50State).statusCheckTimer = none ∧
    (resetAnalysisState pendingAt50State).statusCheckAttempts = 0 ∧
    (resetAnalysisState pendingAt50State).statusCheckErrorCount.getD 0 = 0 ∧
    (viewFileResults pendingAt50State "f2").2 = [Effect.resultsFetch "f2"] ∧
    (viewFileResults pendingAt50State "f2").1.pendingTimers = [] ∧
    (viewFileResults pendingAt50State "f2").1.statusCheckAttempts = 0 ∧
    (viewFileResults pendingAt50State "f2").1.statusCheckErrorCount.getD 0 = 0) :=
  ⟨by decide, claim8_reset_clears_state pendingAt50State "f2" (by decide)⟩

end AuditTool
